import Mathlib

set_option maxRecDepth 8000

/-!
Verification of the geocoding service's orchestration and caching core.

This file is a shallow embedding, in Lean 4, of the repository's Python code:

* `src/models/result.py`, `success.py`, `failure.py` — the `Result` type;
* `src/services/cache.py` — the two-tier cache (`CacheManager`);
* `src/services/abstract.py` — raw-response cache keys (`_generate_cache_key`);
* `src/services/geocoders/__init__.py` and `src/services/reversers/__init__.py`
  — final-response cache keys and the `search` orchestration (cache check,
  explicit-platform path, failover loop), plus registry construction;
* `src/services/reversers/nominatim.py` — the Nominatim reverse adapter.

Modelling conventions, stated once:

* Python strings are Lean `String`s; `str.lower`/`str.upper`/`str.strip`
  are `String.toLower`/`String.toUpper`/`String.trim` (the code only ever
  normalizes ASCII provider names and addresses).
* Python `float` coordinate values are modelled as exact rationals `ℚ`;
  the `f"{x:.6f}"` conversion rounds the value half-to-even at the sixth
  decimal and keeps the sign of a negative value that rounds to zero,
  exactly as CPython's fixed-point float formatting does.
* `hashlib.sha256(...).hexdigest()` is implemented concretely below
  (FIPS 180-4, executable), so key equality and inequality can be decided.
* Async functions are modelled as pure state-passing functions: the cache
  is an explicit `CacheState` threaded through every operation.  Backend
  (Redis/SQLite) availability errors are out of scope: the embedding models
  the happy path of both tiers, which is what the claims quantify over.
* Python dictionaries appear in two roles: the provider registry is an
  insertion-ordered association list `List (String × α)` (lookup is
  `List.lookup`, iteration order is list order, exactly the semantics of a
  `dict` with distinct keys), and request-parameter mappings are
  association lists of `(name, JSON value)` pairs.
* An adapter is represented by its observable behaviour: a function from
  the query to the `Result` it returns.  The orchestrator's `search` also
  returns the list of names of the adapters it invoked, in invocation
  order, so that "invokes no adapter / zero network calls" is expressible.
-/

/-! ## The Result type (src/models/result.py, success.py, failure.py) -/

/-- Embedding of the two-variant `Result` class: `Success(value)` holds a
success value, `Failure(error)` holds an error value.  Exactly one variant
is populated, by construction. -/
inductive PyResult (T E : Type) where
  | Success : T → PyResult T E
  | Failure : E → PyResult T E
deriving DecidableEq, Repr

namespace PyResult

/-- Embedding of `Result.is_success`. -/
def is_success : PyResult T E → Bool
  | .Success _ => true
  | .Failure _ => false

/-- Embedding of `Result.is_failure`. -/
def is_failure : PyResult T E → Bool
  | .Success _ => false
  | .Failure _ => true

/-- Embedding of `Result.map`: transforms the success value, no-op on
`Failure`. -/
def map (f : T → U) : PyResult T E → PyResult U E
  | .Success v => .Success (f v)
  | .Failure e => .Failure e

/-- Embedding of `Result.flat_map`: chains a `T → Result`, no-op on
`Failure`. -/
def flat_map (f : T → PyResult U E) : PyResult T E → PyResult U E
  | .Success v => f v
  | .Failure e => .Failure e

/-- Embedding of `Result.map_err`: transforms the error value, no-op on
`Success`. -/
def map_err (f : E → F) : PyResult T E → PyResult T F
  | .Success v => .Success v
  | .Failure e => .Failure (f e)

/-- Embedding of `Result.unwrap`.  The Python method raises
`ResultException` on a `Failure`; the embedding returns `none` there. -/
def unwrap : PyResult T E → Option T
  | .Success v => some v
  | .Failure _ => none

/-- Embedding of `Result.unwrap_err`.  The Python method raises
`ResultException` on a `Success`; the embedding returns `none` there. -/
def unwrap_err : PyResult T E → Option E
  | .Success _ => none
  | .Failure e => some e

end PyResult

/-! ## Python string primitives

Core `String.toLower`, `String.toUpper` and `String.trim` are implemented
with well-founded recursion, which the kernel cannot evaluate; the
embeddings below are structurally recursive over the character list and
agree with the Python methods on the ASCII data this system normalizes. -/

/-- Embedding of Python `str.lower` (ASCII case mapping). -/
def pyLower (s : String) : String := String.mk (s.data.map Char.toLower)

/-- Embedding of Python `str.upper` (ASCII case mapping). -/
def pyUpper (s : String) : String := String.mk (s.data.map Char.toUpper)

/-- Embedding of Python `str.strip` with no argument: removes leading and
trailing whitespace. -/
def pyStrip (s : String) : String :=
  String.mk (((s.data.dropWhile Char.isWhitespace).reverse.dropWhile
    Char.isWhitespace).reverse)

/-! ## SHA-256 (executable model of `hashlib.sha256(...).hexdigest()`)

A direct FIPS 180-4 implementation over `Nat`, with 32-bit words kept
reduced modulo `2 ^ 32`.  Only structural recursion is used so that the
kernel can evaluate digests inside `decide` / `rfl` proofs. -/

namespace Sha256

/-- Modulus of a 32-bit word. -/
def m32 : Nat := 4294967296

/-- Right rotation of a 32-bit word by `n` bits (for `x < m32`). -/
def rotw (n x : Nat) : Nat := x / 2 ^ n + x % 2 ^ n * 2 ^ (32 - n)

/-- Logical right shift of a 32-bit word. -/
def shr (n x : Nat) : Nat := x / 2 ^ n

/-- Bitwise complement of a 32-bit word. -/
def not32 (x : Nat) : Nat := x ^^^ (m32 - 1)

/-- Round constants `K` of SHA-256 (FIPS 180-4), written in decimal. -/
def K : List Nat :=
  [1116352408, 1899447441, 3049323471, 3921009573, 961987163,
   1508970993, 2453635748, 2870763221, 3624381080, 310598401,
   607225278, 1426881987, 1925078388, 2162078206, 2614888103,
   3248222580, 3835390401, 4022224774, 264347078, 604807628,
   770255983, 1249150122, 1555081692, 1996064986, 2554220882,
   2821834349, 2952996808, 3210313671, 3336571891, 3584528711,
   113926993, 338241895, 666307205, 773529912, 1294757372,
   1396182291, 1695183700, 1986661051, 2177026350, 2456956037,
   2730485921, 2820302411, 3259730800, 3345764771, 3516065817,
   3600352804, 4094571909, 275423344, 430227734, 506948616,
   659060556, 883997877, 958139571, 1322822218, 1537002063,
   1747873779, 1955562222, 2024104815, 2227730452, 2361852424,
   2428436474, 2756734187, 3204031479, 3329325298]

/-- Working state: eight 32-bit hash words. -/
structure St where
  a : Nat
  b : Nat
  c : Nat
  d : Nat
  e : Nat
  f : Nat
  g : Nat
  h : Nat
deriving DecidableEq, Repr

/-- Initial hash value of SHA-256, written in decimal. -/
def H0 : St :=
  ⟨1779033703, 3144134277, 1013904242, 2773480762,
   1359893119, 2600822924, 528734635, 1541459225⟩

/-- Message-schedule small sigma 0. -/
def sigmaS0 (x : Nat) : Nat := rotw 7 x ^^^ rotw 18 x ^^^ shr 3 x

/-- Message-schedule small sigma 1. -/
def sigmaS1 (x : Nat) : Nat := rotw 17 x ^^^ rotw 19 x ^^^ shr 10 x

/-- Round big sigma 0. -/
def sigmaB0 (x : Nat) : Nat := rotw 2 x ^^^ rotw 13 x ^^^ rotw 22 x

/-- Round big sigma 1. -/
def sigmaB1 (x : Nat) : Nat := rotw 6 x ^^^ rotw 11 x ^^^ rotw 25 x

/-- Packs a byte list into big-endian 32-bit words. -/
def bytesToWords : List Nat → List Nat
  | a :: b :: c :: d :: rest => (((a * 256 + b) * 256 + c) * 256 + d) :: bytesToWords rest
  | _ => []

/-- Extends the message schedule by `k` further words; `wrev` holds the
schedule so far, most recent word first. -/
def extendW : Nat → List Nat → List Nat
  | 0, wrev => wrev
  | k + 1, wrev =>
    let g := fun i => (wrev.get? i).getD 0
    extendW k (((sigmaS1 (g 1) + g 6 + sigmaS0 (g 14) + g 15) % m32) :: wrev)

/-- The 64-word message schedule of one 64-byte block. -/
def schedule (block : List Nat) : List Nat :=
  (extendW 48 (bytesToWords block).reverse).reverse

/-- One compression round. -/
def round (s : St) (kw : Nat × Nat) : St :=
  let t1 := (s.h + sigmaB1 s.e + ((s.e &&& s.f) ^^^ (not32 s.e &&& s.g))
             + kw.1 + kw.2) % m32
  let t2 := (sigmaB0 s.a + ((s.a &&& s.b) ^^^ (s.a &&& s.c) ^^^ (s.b &&& s.c))) % m32
  ⟨(t1 + t2) % m32, s.a, s.b, s.c, (s.d + t1) % m32, s.e, s.f, s.g⟩

/-- Compresses one 64-byte block into the running hash. -/
def compress (h : St) (block : List Nat) : St :=
  let s := ((K.zip (schedule block)).foldl round h)
  ⟨(h.a + s.a) % m32, (h.b + s.b) % m32, (h.c + s.c) % m32, (h.d + s.d) % m32,
   (h.e + s.e) % m32, (h.f + s.f) % m32, (h.g + s.g) % m32, (h.h + s.h) % m32⟩

/-- Consumes the padded message byte-by-byte, compressing every full
64-byte buffer.  Structural recursion on the byte list. -/
def processBytes (h : St) (buf : List Nat) : List Nat → St
  | [] => h
  | b :: rest =>
    let buf2 := buf ++ [b]
    if buf2.length = 64 then processBytes (compress h buf2) [] rest
    else processBytes h buf2 rest

/-- Big-endian 8-byte encoding of a 64-bit length. -/
def lenBytes (n : Nat) : List Nat :=
  [n / 2 ^ 56 % 256, n / 2 ^ 48 % 256, n / 2 ^ 40 % 256, n / 2 ^ 32 % 256,
   n / 2 ^ 24 % 256, n / 2 ^ 16 % 256, n / 2 ^ 8 % 256, n % 256]

/-- SHA-256 padding: a `0x80` byte, zeros to 56 mod 64, then the bit length. -/
def pad (msg : List Nat) : List Nat :=
  let L := msg.length
  msg ++ 0x80 :: List.replicate ((119 - L % 64) % 64) 0 ++ lenBytes (8 * L)

/-- SHA-256 of a byte list, as the final eight hash words. -/
def hashBytes (msg : List Nat) : St := processBytes H0 [] (pad msg)

/-- Lowercase hexadecimal rendering of one 32-bit word (8 digits). -/
def wordHex (w : Nat) : List Char :=
  [Nat.digitChar (w / 2 ^ 28 % 16), Nat.digitChar (w / 2 ^ 24 % 16),
   Nat.digitChar (w / 2 ^ 20 % 16), Nat.digitChar (w / 2 ^ 16 % 16),
   Nat.digitChar (w / 2 ^ 12 % 16), Nat.digitChar (w / 2 ^ 8 % 16),
   Nat.digitChar (w / 2 ^ 4 % 16), Nat.digitChar (w % 16)]

/-- UTF-8 encoding of one character, as bytes. -/
def charUtf8 (c : Char) : List Nat :=
  let n := c.toNat
  if n < 0x80 then [n]
  else if n < 0x800 then [0xC0 + n / 64, 0x80 + n % 64]
  else if n < 0x10000 then [0xE0 + n / 4096, 0x80 + n / 64 % 64, 0x80 + n % 64]
  else [0xF0 + n / 262144, 0x80 + n / 4096 % 64, 0x80 + n / 64 % 64, 0x80 + n % 64]

/-- UTF-8 encoding of a string, as bytes (`str.encode()` in Python). -/
def strBytes (s : String) : List Nat :=
  s.data.foldr (fun c acc => charUtf8 c ++ acc) []

end Sha256

/-- Embedding of `hashlib.sha256(s.encode()).hexdigest()`: the lowercase
64-digit hexadecimal SHA-256 digest of the UTF-8 encoding of `s`. -/
def sha256hex (s : String) : String :=
  let h := Sha256.hashBytes (Sha256.strBytes s)
  String.mk (Sha256.wordHex h.a ++ Sha256.wordHex h.b ++ Sha256.wordHex h.c ++
             Sha256.wordHex h.d ++ Sha256.wordHex h.e ++ Sha256.wordHex h.f ++
             Sha256.wordHex h.g ++ Sha256.wordHex h.h)


/-! ## Request parameters and the raw-response cache key
(src/services/abstract.py, `ServiceCommandBase._generate_cache_key`) -/

/-- A JSON value as it occurs in the provider request-parameter mappings:
a string or a number.  Python floats/ints are modelled as exact rationals. -/
inductive JValue where
  | s : String → JValue
  | n : ℚ → JValue
deriving DecidableEq, Repr

/-- Serialization of one JSON value, as `json.dumps` renders it.  The exact
digit rendering of numbers is abstracted to a fixed total function (the
key-derivation claims depend only on serialization being a function of the
value). -/
def dumpJValue : JValue → String
  | .s v => "\"" ++ v ++ "\""
  | .n q => if q.den = 1 then toString q.num else toString q.num ++ "/" ++ toString q.den

/-- Order of parameter entries by key: lexicographic code-point order on
the key strings, as Python's key sort uses. -/
def keyLE (a b : String × JValue) : Prop := a.1 ≤ b.1

instance : DecidableRel keyLE := fun a b => inferInstanceAs (Decidable (a.1 ≤ b.1))

instance : IsTotal (String × JValue) keyLE := ⟨fun a b => le_total a.1 b.1⟩

instance : IsTrans (String × JValue) keyLE := ⟨fun _ _ _ hab hbc => le_trans hab hbc⟩

/-- Stable sort of a parameter mapping by key: the canonicalization that
`json.dumps(params, sort_keys=True)` performs. -/
def sortByKey (l : List (String × JValue)) : List (String × JValue) :=
  l.insertionSort keyLE

/-- Embedding of `json.dumps(params, sort_keys=True)`: entries sorted by
key, rendered as a JSON object with `", "` and `": "` separators. -/
def dumpsSorted (params : List (String × JValue)) : String :=
  "\x7b" ++ String.intercalate ", "
    ((sortByKey params).map (fun p => "\"" ++ p.1 ++ "\": " ++ dumpJValue p.2)) ++ "\x7d"

/-- Embedding of `ServiceCommandBase._generate_cache_key`: hash of the
canonical (key-sorted) serialization of the parameters, combined with the
service name as `raw:<name>:<hex-hash>`. -/
def ServiceCommandBase.generate_cache_key (name : String)
    (params : List (String × JValue)) : String :=
  "raw:" ++ name ++ ":" ++ sha256hex (dumpsSorted params)

/-! ## The two-tier cache (src/services/cache.py, `CacheManager`)

Tier 1 is Redis (volatile, TTL-bounded), tier 2 is SQLite (durable, two
tables).  The state is explicit; tier-1 entries carry the TTL they were
written with.  Insert-or-replace is modelled as prepending, with lookup
returning the most recent binding. -/

/-- The two durable (SQLite) tables. -/
inductive Table where
  | raw_responses
  | final_responses
deriving DecidableEq, Repr

/-- Embedding of `REDIS_TTL_SECONDS = 3600 * 24`. -/
def REDIS_TTL_SECONDS : Nat := 3600 * 24

/-- The whole cache state: the Redis keyspace (value and TTL per key) and
the two SQLite tables (value per key). -/
structure CacheState where
  tier1 : List (String × (String × Nat))
  raw_responses : List (String × String)
  final_responses : List (String × String)
deriving DecidableEq, Repr

namespace CacheManager

/-- The rows of the given SQLite table. -/
def tableOf (st : CacheState) : Table → List (String × String)
  | .raw_responses => st.raw_responses
  | .final_responses => st.final_responses

/-- Replaces the rows of the given SQLite table. -/
def withTable (st : CacheState) : Table → List (String × String) → CacheState
  | .raw_responses, l => { st with raw_responses := l }
  | .final_responses, l => { st with final_responses := l }

/-- The SQLite half of `CacheManager._get`: `SELECT value ... WHERE key = ?`;
if a row exists, its value is promoted into tier 1 (Redis `SET` with
`ex=REDIS_TTL_SECONDS`) and returned — note that `if row:` tests the row
tuple, so an empty-string value is still returned. -/
def getL2 (st : CacheState) (key : String) (table : Table) :
    Option String × CacheState :=
  match (tableOf st table).lookup key with
  | some v => (some v, { st with tier1 := (key, (v, REDIS_TTL_SECONDS)) :: st.tier1 })
  | none => (none, st)

/-- Embedding of `CacheManager._get`: try Redis first (`if cached_value:`
— a hit requires a truthy, i.e. non-empty, string), then fall back to the
SQLite table with promotion. -/
def get (st : CacheState) (key : String) (table : Table) :
    Option String × CacheState :=
  match st.tier1.lookup key with
  | some vt => if vt.1 = "" then getL2 st key table else (some vt.1, st)
  | none => getL2 st key table

/-- Embedding of `CacheManager._set`: write to Redis with the fixed TTL and
upsert into the SQLite table. -/
def set (st : CacheState) (key value_str : String) (table : Table) : CacheState :=
  let st1 := { st with tier1 := (key, (value_str, REDIS_TTL_SECONDS)) :: st.tier1 }
  withTable st1 table ((key, value_str) :: tableOf st1 table)

/-- Embedding of `CacheManager.get_raw`: `json.loads(value_str) if
value_str else None` — a falsy (empty) stored string deserializes to
`None`.  `loads` stands for `json.loads` on the values the system stores. -/
def get_raw {Data : Type} (loads : String → Data) (st : CacheState) (key : String) :
    Option Data × CacheState :=
  let r := get st key .raw_responses
  (match r.1 with
   | some v => if v = "" then none else some (loads v)
   | none => none, r.2)

/-- Embedding of `CacheManager.set_raw`: serialize and `_set` into the
`raw_responses` table. -/
def set_raw {Data : Type} (dumps : Data → String) (st : CacheState) (key : String)
    (value : Data) : CacheState :=
  set st key (dumps value) .raw_responses

/-- Embedding of `CacheManager.get_final`: same shape as `get_raw`, on the
`final_responses` table. -/
def get_final {Data : Type} (loads : String → Data) (st : CacheState) (key : String) :
    Option Data × CacheState :=
  let r := get st key .final_responses
  (match r.1 with
   | some v => if v = "" then none else some (loads v)
   | none => none, r.2)

/-- Embedding of `CacheManager.set_final`: serialize (the Pydantic
`model_dump` plus `json.dumps` steps are the `dumps` parameter) and `_set`
into the `final_responses` table. -/
def set_final {Data : Type} (dumps : Data → String) (st : CacheState) (key : String)
    (value : Data) : CacheState :=
  set st key (dumps value) .final_responses

end CacheManager

/-! ## Coordinates and the final-response cache keys
(src/models/coordinates.py and the `_generate_cache_key` methods of
src/services/geocoders/__init__.py and src/services/reversers/__init__.py) -/

/-- Embedding of the `Coordinates` model: latitude and longitude, held as
the exact rational values of the Python floats. -/
structure Coordinates where
  latitude : ℚ
  longitude : ℚ
deriving DecidableEq, Repr

/-- Validity predicate of the `Coordinates` model (Pydantic `ge`/`le`
bounds): latitude in `[-90, 90]`, longitude in `[-180, 180]`. -/
def Coordinates.valid (c : Coordinates) : Prop :=
  -90 ≤ c.latitude ∧ c.latitude ≤ 90 ∧ -180 ≤ c.longitude ∧ c.longitude ≤ 180

/-- Rounds `|q| * 10 ^ 6` to the nearest integer, ties to even — the
rounding CPython's fixed-point float formatting performs — computed on the
numerator and denominator with integer arithmetic (`|q| * 10 ^ 6` is
exactly `(q.num.natAbs * 10 ^ 6) / q.den`). -/
def round6 (q : ℚ) : Nat :=
  let a := q.num.natAbs * 1000000
  let b := q.den
  let t := a / b
  let r := a % b
  if 2 * r < b then t
  else if b < 2 * r then t + 1
  else if t % 2 = 0 then t else t + 1

/-- Truncation of `|q|` to six decimals, as a scaled integer: the integer
part together with the first six decimal digits.  Two nonnegative values
agree on `trunc6` exactly when they differ only beyond the sixth decimal
digit. -/
def trunc6 (q : ℚ) : Nat := q.num.natAbs * 1000000 / q.den

/-- Zero-pads a natural's decimal rendering to six digits. -/
def pad6 (n : Nat) : String :=
  let s := toString n
  String.mk (List.replicate (6 - s.length) '0') ++ s

/-- Embedding of the Python conversion `f"\x7bq:.6f\x7d"`: the value
rounded half-to-even at the sixth decimal, rendered with exactly six
decimals; a negative value keeps its sign even when it rounds to zero
(the sign test `q < 0` is written on the numerator, which is the same
test). -/
def fmt6 (q : ℚ) : String :=
  let n := round6 q
  let body := toString (n / 1000000) ++ "." ++ pad6 (n % 1000000)
  if q.num < 0 then "-" ++ body else body

/-- Normalization of the platform selector as both `_generate_cache_key`
methods perform it: `platform.lower().strip() if platform else "any"`
(the Python truthiness test makes both `None` and the empty string fall
back to the literal token `"any"`). -/
def platformNorm (platform : Option String) : String :=
  match platform with
  | some p => if p = "" then "any" else pyStrip (pyLower p)
  | none => "any"

/-- Embedding of `Geocoder._generate_cache_key`
(src/services/geocoders/__init__.py): normalized address and platform,
hashed, under the `final:geocode:` namespace. -/
def Geocoder.generate_cache_key (address : String) (platform : Option String) : String :=
  let address_norm := pyStrip (pyLower address)
  "final:geocode:" ++ sha256hex (address_norm ++ ":" ++ platformNorm platform)

/-- Embedding of `GeocoderReverser._generate_cache_key`
(src/services/reversers/__init__.py): both coordinates formatted to six
decimals, joined with the normalized platform, hashed, under the
`final:revgeo:` namespace. -/
def GeocoderReverser.generate_cache_key (c : Coordinates) (platform : Option String) :
    String :=
  let coords_str := fmt6 c.latitude ++ ":" ++ fmt6 c.longitude
  "final:revgeo:" ++ sha256hex (coords_str ++ ":" ++ platformNorm platform)

/-! ## The orchestrator (`Geocoder.search` / `GeocoderReverser.search`)

Both classes implement the same `search` algorithm over their registry and
key function; the embedding is one generic function.  The outcome records
the returned response, the cache state after the call, and the names of
the adapters invoked, in order. -/

/-- Embedding of `GeocodeResponse` / `ReverseGeocodeResponse`
(src/responses.py): success flag, optional data, optional error, the
omitted fields defaulting to `None`. -/
structure SearchResponse (Data : Type) where
  success : Bool
  data : Option Data
  error : Option String
deriving DecidableEq, Repr

/-- The observable outcome of one `search` call: the response, the cache
state afterwards, and the invoked adapter names in invocation order. -/
structure SearchOutcome (Data : Type) where
  response : SearchResponse Data
  state : CacheState
  calls : List String
deriving DecidableEq, Repr

namespace Orchestrator

/-- Embedding of the failover loop of `search`: iterate the registry in
order; the first adapter whose `Result` is a success writes the final
cache and terminates; if the loop exhausts the registry, return the
"All geocoding services failed." failure. -/
def tryAll {Q Data : Type} (dumps : Data → String) (q : Q) (key : String)
    (st : CacheState) :
    List (String × (Q → PyResult Data String)) → SearchOutcome Data
  | [] => ⟨⟨false, none, some "All geocoding services failed."⟩, st, []⟩
  | (name, adapter) :: rest =>
    match adapter q with
    | .Success d =>
      ⟨⟨true, some d, none⟩, CacheManager.set_final dumps st key d, [name]⟩
    | .Failure _ =>
      let r := tryAll dumps q key st rest
      ⟨r.response, r.state, name :: r.calls⟩

/-- Embedding of `Geocoder.search` / `GeocoderReverser.search`: derive the
final key, short-circuit on a cache hit; with a truthy platform, look up
the single adapter by upper-cased name (unknown name fails, the adapter's
failure is returned verbatim, its success is cached); otherwise run the
failover loop, or fail if the registry is empty. -/
def search {Q Data : Type} (loads : String → Data) (dumps : Data → String)
    (genKey : Q → Option String → String)
    (registry : List (String × (Q → PyResult Data String)))
    (st : CacheState) (q : Q) (platform : Option String) : SearchOutcome Data :=
  let key := genKey q platform
  let got := CacheManager.get_final loads st key
  match got.1 with
  | some data => ⟨⟨true, some data, none⟩, got.2, []⟩
  | none =>
    let st1 := got.2
    let failover : SearchOutcome Data :=
      if registry.isEmpty then
        ⟨⟨false, none, some "No geocoders are configured."⟩, st1, []⟩
      else tryAll dumps q key st1 registry
    match platform with
    | some p =>
      if p = "" then failover
      else
        match registry.lookup (pyUpper p) with
        | none => ⟨⟨false, none, some "Invalid platform specified."⟩, st1, []⟩
        | some adapter =>
          match adapter q with
          | .Success d =>
            ⟨⟨true, some d, none⟩, CacheManager.set_final dumps st1 key d, [pyUpper p]⟩
          | .Failure e => ⟨⟨false, none, some e⟩, st1, [pyUpper p]⟩
    | none => failover

end Orchestrator

/-- `Geocoder.search`: the generic orchestrator over the geocode key. -/
def Geocoder.search {Data : Type} (loads : String → Data) (dumps : Data → String)
    (registry : List (String × (String → PyResult Data String)))
    (st : CacheState) (address : String) (platform : Option String) :
    SearchOutcome Data :=
  Orchestrator.search loads dumps Geocoder.generate_cache_key registry st address platform

/-- `GeocoderReverser.search`: the generic orchestrator over the
reverse-geocode key. -/
def GeocoderReverser.search {Data : Type} (loads : String → Data) (dumps : Data → String)
    (registry : List (String × (Coordinates → PyResult Data String)))
    (st : CacheState) (c : Coordinates) (platform : Option String) :
    SearchOutcome Data :=
  Orchestrator.search loads dumps GeocoderReverser.generate_cache_key registry st c platform

/-! ## Registry construction (`Geocoder.__init__`,
src/services/geocoders/__init__.py)

`os.getenv` yields `None` for an unset variable; the constructor stores
whatever it is given.  A Python constructor call evaluates to an instance,
never to `None`; the embedding records this by returning `some` always. -/

/-- The state a `NominatimGeocoder` instance holds after `__init__`
(src/services/geocoders/nominatim.py): the `url` and `user_agent` fields,
either of which can be Python `None` when an environment variable was
unset and was passed explicitly. -/
structure NominatimGeocoderObj where
  url : Option String
  user_agent : Option String
deriving DecidableEq, Repr

/-- Default `url` of `NominatimGeocoder.__init__`. -/
def NOMINATIM_SEARCH_URL : String := "https://nominatim.openstreetmap.org/search"

/-- Embedding of the constructor call `NominatimGeocoder(...)`: stores the
given fields and returns the instance.  The result is wrapped in `Option`
to model the `is not None` test applied to it afterwards: a constructor
call is never `None`, hence always `some`. -/
def NominatimGeocoder.new (url : Option String) (user_agent : Option String) :
    Option NominatimGeocoderObj :=
  some ⟨url, user_agent⟩

/-- Embedding of `Geocoder.__init__`: build the two-entry dictionary from
the environment (`NOMINATIM_USER_AGENT`, `NOMINATIM_GEOCODER_REPLICA_URL_1`
passed as the two arguments, `none` when unset), then keep the entries
whose value `is not None`. -/
def Geocoder.init (nominatim_user_agent nominatim_geocoder_replica_url_1 : Option String) :
    List (String × Option NominatimGeocoderObj) :=
  let geocoders : List (String × Option NominatimGeocoderObj) :=
    [("NOMINATIM", NominatimGeocoder.new (some NOMINATIM_SEARCH_URL) nominatim_user_agent),
     ("NOMINATIM_REPLICA_1",
      NominatimGeocoder.new nominatim_geocoder_replica_url_1 nominatim_user_agent)]
  geocoders.filter (fun e => e.2.isSome)

/-! ## The Nominatim reverse adapter (src/services/reversers/nominatim.py) -/

/-- Embedding of the `Address` model (src/models/address.py): a formatted
address plus optional components. -/
structure Address where
  formatted_address : String
  postcode : Option String
  country : Option String
  state : Option String
  district : Option String
  settlement : Option String
  suburb : Option String
  street : Option String
  house : Option String
deriving DecidableEq, Repr

/-- A Python exception value, as far as the claims need one. -/
inductive PyExn where
  | attributeError : String → PyExn
deriving DecidableEq, Repr

/-- A coroutine object: calling an `async def` function in Python returns
one immediately, without running the function body; the body would only
run under `await`. -/
inductive Coroutine (α : Type) where
  | suspended : α → Coroutine α

/-- The method call `c.is_failure()` on a coroutine object: coroutines
have no such attribute, so Python raises `AttributeError`.  The `Empty`
value type records that no boolean is ever produced. -/
def Coroutine.is_failureCall {α : Type} (_c : Coroutine α) : Except PyExn Empty :=
  Except.error (PyExn.attributeError "coroutine object has no attribute is_failure")

/-- Embedding of `NominatimReverseGeocoder.get_addresses`
(src/services/reversers/nominatim.py, lines 23-46).  The source binds
`result = self._make_request(self.url, params, user_agent=self.user_agent)`
WITHOUT `await`, so `result` is the coroutine object itself, and the next
line `result.is_failure()` raises `AttributeError` on every call: the
method never returns a `Result` value.  `make_request` is the (un-entered)
`_make_request` coroutine factory; its payload type is irrelevant because
the coroutine is never awaited. -/
def NominatimReverseGeocoder.get_addresses {Payload : Type}
    (make_request : List (String × JValue) → Coroutine (PyResult Payload String))
    (coordinates : Coordinates) : Except PyExn (PyResult (List Address) String) :=
  let params : List (String × JValue) :=
    [("format", .s "json"), ("lat", .n coordinates.latitude),
     ("lon", .n coordinates.longitude), ("accept-language", .s "en"),
     ("addressdetails", .n 1)]
  let result := make_request params
  match result.is_failureCall with
  | .error e => .error e
  | .ok b => b.elim


/-! ## Helper lemmas -/

/-- A key absent from tier 1 and from the queried table is a miss: `_get`
returns `None` and leaves the state unchanged. -/
theorem CacheManager.get_missTotal (st : CacheState) (key : String) (t : Table)
    (h1 : st.tier1.lookup key = none)
    (h2 : (CacheManager.tableOf st t).lookup key = none) :
    CacheManager.get st key t = (none, st) := by
  simp [CacheManager.get, CacheManager.getL2, h1, h2]

/-- A key absent from tier 1 and from the `final_responses` table makes
`get_final` a miss with the state unchanged. -/
theorem CacheManager.get_final_missTotal {Data : Type} (loads : String → Data)
    (st : CacheState) (key : String)
    (h1 : st.tier1.lookup key = none)
    (h2 : st.final_responses.lookup key = none) :
    CacheManager.get_final loads st key = (none, st) := by
  have h2t : (CacheManager.tableOf st .final_responses).lookup key = none := h2
  simp [CacheManager.get_final, CacheManager.get_missTotal st key _ h1 h2t]

/-- When the final-cache read yields data, `search` returns it as a success
and invokes no adapter. -/
theorem Orchestrator.search_cacheHit {Q Data : Type} (loads : String → Data)
    (dumps : Data → String) (genKey : Q → Option String → String)
    (registry : List (String × (Q → PyResult Data String)))
    (st : CacheState) (q : Q) (platform : Option String) (data : Data)
    (h : (CacheManager.get_final loads st (genKey q platform)).1 = some data) :
    Orchestrator.search loads dumps genKey registry st q platform =
      ⟨⟨true, some data, none⟩,
       (CacheManager.get_final loads st (genKey q platform)).2, []⟩ := by
  simp only [Orchestrator.search, h]

/-- When every adapter in the list fails, the failover loop returns the
aggregate failure, leaves the cache alone, and has invoked every adapter
in list order. -/
theorem Orchestrator.tryAll_allFail {Q Data : Type} (dumps : Data → String) (q : Q)
    (key : String) (st : CacheState)
    (l : List (String × (Q → PyResult Data String)))
    (h : ∀ e ∈ l, (e.2 q).is_failure = true) :
    Orchestrator.tryAll dumps q key st l =
      ⟨⟨false, none, some "All geocoding services failed."⟩, st, l.map Prod.fst⟩ := by
  induction l with
  | nil => simp [Orchestrator.tryAll]
  | cons hd tl ih =>
    obtain ⟨name, adapter⟩ := hd
    have hf : (adapter q).is_failure = true := h _ (List.mem_cons_self _ _)
    cases hq : adapter q with
    | Success d => rw [hq] at hf; simp [PyResult.is_failure] at hf
    | Failure e =>
      have ih2 := ih (fun e he => h e (List.mem_cons_of_mem _ he))
      simp [Orchestrator.tryAll, hq, ih2]

/-- When the adapters before position `pre.length` all fail and the adapter
there succeeds, the failover loop stops at it: it writes the final cache,
returns its value, and has invoked exactly the failing prefix plus the
succeeding adapter — never anything after it. -/
theorem Orchestrator.tryAll_firstSuccess {Q Data : Type} (dumps : Data → String) (q : Q)
    (key : String) (st : CacheState) (name : String)
    (adapter : Q → PyResult Data String)
    (post : List (String × (Q → PyResult Data String))) (d : Data)
    (hs : adapter q = .Success d)
    (pre : List (String × (Q → PyResult Data String)))
    (h : ∀ e ∈ pre, (e.2 q).is_failure = true) :
    Orchestrator.tryAll dumps q key st (pre ++ (name, adapter) :: post) =
      ⟨⟨true, some d, none⟩, CacheManager.set_final dumps st key d,
       pre.map Prod.fst ++ [name]⟩ := by
  induction pre with
  | nil => simp [Orchestrator.tryAll, hs]
  | cons hd tl ih =>
    obtain ⟨n2, a2⟩ := hd
    have hf : (a2 q).is_failure = true := h _ (List.mem_cons_self _ _)
    cases hq : a2 q with
    | Success d2 => rw [hq] at hf; simp [PyResult.is_failure] at hf
    | Failure e2 =>
      have ih2 := ih (fun e he => h e (List.mem_cons_of_mem _ he))
      simp [Orchestrator.tryAll, hq, ih2]

/-! ## Claim C1 -/

/-- C1, cache short-circuit: for every query, optional platform, and cache
state whose final-response cache holds an entry under the derived final
key, `search` returns a success response carrying the deserialized cached
data and invokes no adapter (the invocation list is empty, hence zero
network calls).  Stated for the generic orchestrator, which both
`Geocoder.search` and `GeocoderReverser.search` instantiate. -/
theorem C1_cache_short_circuit {Q Data : Type} (loads : String → Data)
    (dumps : Data → String) (genKey : Q → Option String → String)
    (registry : List (String × (Q → PyResult Data String)))
    (st : CacheState) (q : Q) (platform : Option String) (data : Data)
    (h : (CacheManager.get_final loads st (genKey q platform)).1 = some data) :
    Orchestrator.search loads dumps genKey registry st q platform =
      ⟨⟨true, some data, none⟩,
       (CacheManager.get_final loads st (genKey q platform)).2, []⟩ :=
  Orchestrator.search_cacheHit loads dumps genKey registry st q platform data h

/-- C1 witness: a concrete cache state holding a final entry for the query
`"quito"`; `search` returns the cached value and calls no adapter, even
though the registered adapter would fail. -/
theorem C1_cache_short_circuit_witness :
    Orchestrator.search (fun s => s) (fun s => s) Geocoder.generate_cache_key
      [("NOMINATIM", fun _ => PyResult.Failure "x")]
      ⟨[], [], [(Geocoder.generate_cache_key "quito" none, "cached")]⟩
      "quito" none =
      ⟨⟨true, some "cached", none⟩,
       (CacheManager.get_final (fun s => s)
         ⟨[], [], [(Geocoder.generate_cache_key "quito" none, "cached")]⟩
         (Geocoder.generate_cache_key "quito" none)).2, []⟩ :=
  C1_cache_short_circuit (fun s => s) (fun s => s) Geocoder.generate_cache_key
    [("NOMINATIM", fun _ => PyResult.Failure "x")]
    ⟨[], [], [(Geocoder.generate_cache_key "quito" none, "cached")]⟩
    "quito" none "cached" (by decide)

/-! ## Claim C2 -/

/-- C2, failover algorithm: for every query with no platform given, on a
final-cache miss: an empty registry yields the "no providers configured"
failure with no adapter invoked; when the registry splits as
`pre ++ (name, adapter) :: post` with every adapter of `pre` failing and
`adapter` succeeding, the adapters invoked are exactly `pre` plus
`adapter` in registry order (nothing after the first success), the success
value is written to the final-response cache and returned; and when the
registry is nonempty and every adapter fails, the "all services failed"
failure is returned with every adapter having been invoked in order. -/
theorem C2_failover {Q Data : Type} (loads : String → Data) (dumps : Data → String)
    (genKey : Q → Option String → String)
    (registry : List (String × (Q → PyResult Data String)))
    (st : CacheState) (q : Q)
    (h1 : st.tier1.lookup (genKey q none) = none)
    (h2 : st.final_responses.lookup (genKey q none) = none) :
    (registry = [] →
       Orchestrator.search loads dumps genKey registry st q none =
         ⟨⟨false, none, some "No geocoders are configured."⟩, st, []⟩)
  ∧ (∀ pre name adapter post d, registry = pre ++ (name, adapter) :: post →
       (∀ e ∈ pre, (e.2 q).is_failure = true) → adapter q = .Success d →
       Orchestrator.search loads dumps genKey registry st q none =
         ⟨⟨true, some d, none⟩,
          CacheManager.set_final dumps st (genKey q none) d,
          pre.map Prod.fst ++ [name]⟩)
  ∧ (registry ≠ [] → (∀ e ∈ registry, (e.2 q).is_failure = true) →
       Orchestrator.search loads dumps genKey registry st q none =
         ⟨⟨false, none, some "All geocoding services failed."⟩, st,
          registry.map Prod.fst⟩) := by
  have hmiss := CacheManager.get_final_missTotal loads st (genKey q none) h1 h2
  refine ⟨?_, ?_, ?_⟩
  · intro hreg
    subst hreg
    simp [Orchestrator.search, hmiss]
  · intro pre name adapter post d hreg hpre hs
    subst hreg
    have hrun := Orchestrator.tryAll_firstSuccess dumps q (genKey q none) st name
      adapter post d hs pre hpre
    have hne : (pre ++ (name, adapter) :: post).isEmpty = false := by
      cases pre <;> rfl
    simp [Orchestrator.search, hmiss, hne, hrun]
  · intro hnonempty hall
    have hrun := Orchestrator.tryAll_allFail dumps q (genKey q none) st registry hall
    have hne : registry.isEmpty = false := by
      cases registry with
      | nil => exact absurd rfl hnonempty
      | cons hd tl => rfl
    simp [Orchestrator.search, hmiss, hne, hrun]

/-- C2 witness: registry `[A, B, Z]` where `A` fails, `B` succeeds with
`"C"` and `Z` would fail; a platform-less search on an empty cache invokes
exactly `A` then `B`, returns `B`'s value, and writes the final cache. -/
theorem C2_failover_witness :
    Orchestrator.search (fun s => s) (fun s => s) Geocoder.generate_cache_key
      [("A", fun _ => PyResult.Failure "x"), ("B", fun _ => PyResult.Success "C"),
       ("Z", fun _ => PyResult.Failure "z")] ⟨[], [], []⟩ "addr" none =
      ⟨⟨true, some "C", none⟩,
       CacheManager.set_final (fun s => s) ⟨[], [], []⟩
         (Geocoder.generate_cache_key "addr" none) "C",
       ["A", "B"]⟩ :=
  (C2_failover (fun s => s) (fun s => s) Geocoder.generate_cache_key
      [("A", fun _ => PyResult.Failure "x"), ("B", fun _ => PyResult.Success "C"),
       ("Z", fun _ => PyResult.Failure "z")] ⟨[], [], []⟩ "addr" rfl rfl).2.1
    [("A", fun _ => PyResult.Failure "x")] "B" (fun _ => PyResult.Success "C")
    [("Z", fun _ => PyResult.Failure "z")] "C" rfl
    (by intro e he; rw [List.mem_singleton] at he; subst he; rfl) rfl

/-! ## Claim C3 -/

/-- C3, explicit-platform path: for every query with a (truthy) platform
string given and a final-cache miss, the adapter is looked up under the
upper-cased name (the case-insensitive lookup against the upper-case
registry keys); an unknown name returns the "invalid platform" failure
with no adapter invoked and the cache state untouched; a known name
invokes exactly that adapter — on success the final cache is written and
success returned, on failure that failure is returned verbatim with the
state untouched, and in both cases no other adapter is ever invoked. -/
theorem C3_explicit_platform {Q Data : Type} (loads : String → Data)
    (dumps : Data → String) (genKey : Q → Option String → String)
    (registry : List (String × (Q → PyResult Data String)))
    (st : CacheState) (q : Q) (p : String) (hp : p ≠ "")
    (h1 : st.tier1.lookup (genKey q (some p)) = none)
    (h2 : st.final_responses.lookup (genKey q (some p)) = none) :
    (registry.lookup (pyUpper p) = none →
       Orchestrator.search loads dumps genKey registry st q (some p) =
         ⟨⟨false, none, some "Invalid platform specified."⟩, st, []⟩)
  ∧ (∀ adapter d, registry.lookup (pyUpper p) = some adapter →
       adapter q = .Success d →
       Orchestrator.search loads dumps genKey registry st q (some p) =
         ⟨⟨true, some d, none⟩,
          CacheManager.set_final dumps st (genKey q (some p)) d, [pyUpper p]⟩)
  ∧ (∀ adapter e, registry.lookup (pyUpper p) = some adapter →
       adapter q = .Failure e →
       Orchestrator.search loads dumps genKey registry st q (some p) =
         ⟨⟨false, none, some e⟩, st, [pyUpper p]⟩) := by
  have hmiss := CacheManager.get_final_missTotal loads st (genKey q (some p)) h1 h2
  refine ⟨?_, ?_, ?_⟩
  · intro hlook
    simp [Orchestrator.search, hmiss, hp, hlook]
  · intro adapter d hlook hs
    simp [Orchestrator.search, hmiss, hp, hlook, hs]
  · intro adapter e hlook hf
    simp [Orchestrator.search, hmiss, hp, hlook, hf]

/-- C3 witness: registry `[A, B]` with `A` failing; an explicit search for
platform `"a"` (case-insensitively resolving to `A`) on an empty cache
returns `A`'s failure verbatim, invokes only `A`, and leaves the cache
untouched — no failover to `B`. -/
theorem C3_explicit_platform_witness :
    Orchestrator.search (fun s => s) (fun s => s) Geocoder.generate_cache_key
      [("A", fun _ => PyResult.Failure "x"), ("B", fun _ => PyResult.Success "C")]
      ⟨[], [], []⟩ "addr" (some "a") =
      ⟨⟨false, none, some "x"⟩, ⟨[], [], []⟩, ["A"]⟩ :=
  (C3_explicit_platform (fun s => s) (fun s => s) Geocoder.generate_cache_key
      [("A", fun _ => PyResult.Failure "x"), ("B", fun _ => PyResult.Success "C")]
      ⟨[], [], []⟩ "addr" "a" (by decide) rfl rfl).2.2
    (fun _ => PyResult.Failure "x") "x" rfl rfl

/-! ## Claim C8 -/

/-- Lookup at the head of an association list. -/
theorem lookupConsSelf {β : Type} (k : String) (x : β) (l : List (String × β)) :
    List.lookup k ((k, x) :: l) = some x := by
  simp [List.lookup]

/-- C8, two-tier read with promotion: for every key and table, `_get`
returns the tier-1 value immediately (state unchanged) on a tier-1 hit; on
a tier-1 miss with a tier-2 hit it writes the tier-2 value into tier 1
with the tier-1 TTL (promotion) and returns that value; and on a miss in
both tiers it returns absent with the state unchanged — never a
synthesized value. -/
theorem C8_two_tier_read (st : CacheState) (key : String) (t : Table) :
    (∀ v ttl, st.tier1.lookup key = some (v, ttl) → v ≠ "" →
       CacheManager.get st key t = (some v, st))
  ∧ (∀ v, st.tier1.lookup key = none →
       (CacheManager.tableOf st t).lookup key = some v →
       CacheManager.get st key t =
         (some v, { st with tier1 := (key, (v, REDIS_TTL_SECONDS)) :: st.tier1 }))
  ∧ (st.tier1.lookup key = none → (CacheManager.tableOf st t).lookup key = none →
       CacheManager.get st key t = (none, st)) := by
  refine ⟨?_, ?_, ?_⟩
  · intro v ttl h hv
    simp [CacheManager.get, h, hv]
  · intro v hm1 hm2
    simp [CacheManager.get, CacheManager.getL2, hm1, hm2]
  · intro hm1 hm2
    exact CacheManager.get_missTotal st key t hm1 hm2

/-- C8 witness: the three read scenarios at concrete states — a tier-1
hit served unchanged, a tier-1 miss promoted from tier 2 with the tier-1
TTL, and a double miss returning absent. -/
theorem C8_two_tier_read_witness :
    CacheManager.get ⟨[("k", ("v", 5))], [], []⟩ "k" .final_responses =
      (some "v", ⟨[("k", ("v", 5))], [], []⟩)
  ∧ CacheManager.get ⟨[], [], [("k", "w")]⟩ "k" .final_responses =
      (some "w", ⟨[("k", ("w", REDIS_TTL_SECONDS))], [], [("k", "w")]⟩)
  ∧ CacheManager.get ⟨[], [], []⟩ "k" .final_responses = (none, ⟨[], [], []⟩) :=
  ⟨(C8_two_tier_read ⟨[("k", ("v", 5))], [], []⟩ "k" .final_responses).1 "v" 5 rfl
     (by decide),
   (C8_two_tier_read ⟨[], [], [("k", "w")]⟩ "k" .final_responses).2.1 "w" rfl rfl,
   (C8_two_tier_read ⟨[], [], []⟩ "k" .final_responses).2.2 rfl rfl⟩

/-! ## Claim C9 -/

/-- C9 counterexample: after `_set("k", "")` on an empty cache, `_get("k")`
does NOT return absent.  The tier-1 hit test (`if cached_value:`) does
skip the falsy empty string, but the tier-2 row test (`if row:`) tests the
row tuple, not the value, so `_get` returns the empty string itself. -/
theorem C9_counterexample :
    (CacheManager.get (CacheManager.set ⟨[], [], []⟩ "k" "" .final_responses)
        "k" .final_responses).1 = some ""
  ∧ (CacheManager.get (CacheManager.set ⟨[], [], []⟩ "k" "" .final_responses)
        "k" .final_responses).1 ≠ none := by
  exact ⟨rfl, by decide⟩

/-- C9 amended: after `_set(key, "")`, `_get(key)` returns the empty
string (served through the tier-2 path, since the tier-1 truthiness test
skips it), and it is the deserialization layer — `get_raw` / `get_final`,
whose `if value_str` treats a falsy string as a miss — that returns
absent; the set-then-get round-trip at that layer holds exactly for
non-empty serialized values. -/
theorem C9_amended_falsy_values {Data : Type} (loads : String → Data)
    (st : CacheState) (key : String) :
    (CacheManager.get (CacheManager.set st key "" .final_responses) key
        .final_responses).1 = some ""
  ∧ (CacheManager.get_final loads (CacheManager.set st key "" .final_responses)
        key).1 = none
  ∧ (CacheManager.get_raw loads (CacheManager.set st key "" .raw_responses)
        key).1 = none
  ∧ ∀ v, v ≠ "" →
      (CacheManager.get_final loads (CacheManager.set st key v .final_responses)
          key).1 = some (loads v)
    ∧ (CacheManager.get_raw loads (CacheManager.set st key v .raw_responses)
          key).1 = some (loads v) := by
  refine ⟨?_, ?_, ?_, ?_⟩
  · simp [CacheManager.set, CacheManager.withTable, CacheManager.tableOf,
      CacheManager.get, CacheManager.getL2, lookupConsSelf]
  · simp [CacheManager.set, CacheManager.withTable, CacheManager.tableOf,
      CacheManager.get_final, CacheManager.get, CacheManager.getL2, lookupConsSelf]
  · simp [CacheManager.set, CacheManager.withTable, CacheManager.tableOf,
      CacheManager.get_raw, CacheManager.get, CacheManager.getL2, lookupConsSelf]
  · intro v hv
    constructor
    · simp [CacheManager.set, CacheManager.withTable, CacheManager.tableOf,
        CacheManager.get_final, CacheManager.get, CacheManager.getL2,
        lookupConsSelf, hv]
    · simp [CacheManager.set, CacheManager.withTable, CacheManager.tableOf,
        CacheManager.get_raw, CacheManager.get, CacheManager.getL2,
        lookupConsSelf, hv]

/-- C9 witness: on an empty cache, a stored empty string reads back as
absent through `get_final`, while a non-empty payload round-trips. -/
theorem C9_amended_falsy_values_witness :
    (CacheManager.get_final (fun s => s)
        (CacheManager.set ⟨[], [], []⟩ "k" "" .final_responses) "k").1 = none
  ∧ (CacheManager.get_final (fun s => s)
        (CacheManager.set ⟨[], [], []⟩ "k" "payload" .final_responses) "k").1 =
      some "payload" :=
  ⟨(C9_amended_falsy_values (fun s => s) ⟨[], [], []⟩ "k").2.1,
   ((C9_amended_falsy_values (fun s => s) ⟨[], [], []⟩ "k").2.2.2 "payload"
      (by decide)).1⟩

/-! ## Claim C4 -/

/-- C4, adapter errors as values: the claim says every registered
adapter's capability method returns a `Result` value and never raises.
The code violates this: `NominatimReverseGeocoder.get_addresses` calls
`self._make_request(...)` without `await`, binds the coroutine object, and
then calls `.is_failure()` on it, which raises `AttributeError` — on every
input and for every behaviour of `_make_request`.  (The repository's own
tests mock `_make_request` as an `AsyncMock` and assert a returned
`Result`, so the missing `await` contradicts them; the other reverse
adapters do `await` and return `Failure` values as the claim states.) -/
theorem C4_nominatim_get_addresses_raises {Payload : Type}
    (make_request : List (String × JValue) → Coroutine (PyResult Payload String))
    (coordinates : Coordinates) :
    NominatimReverseGeocoder.get_addresses make_request coordinates =
      Except.error
        (PyExn.attributeError "coroutine object has no attribute is_failure") :=
  rfl

/-! ## Claim C5 -/

/-- C5, registry construction: the claim says providers with incomplete
configuration are dropped from the registry.  The code violates this: the
comprehension filter `if geocoder is not None` can never remove anything,
because a Python constructor call always yields an instance.  Evaluating
`Geocoder.__init__` with every environment variable unset (both arguments
`none`) retains `NOMINATIM_REPLICA_1` even though its replica URL is
missing (`url = None`), instead of dropping it. -/
theorem C5_registry_keeps_incomplete_entries :
    Geocoder.init none none =
      [("NOMINATIM", some ⟨some NOMINATIM_SEARCH_URL, none⟩),
       ("NOMINATIM_REPLICA_1", some ⟨none, none⟩)] :=
  rfl

/-! ## Claim C10 -/

/-- C10, the platform token "any" aliases the no-platform request: for
every query, any platform string that lowercases and strips to `"any"`
derives the same final cache key (geocode and reverse geocode) as no
platform at all; consequently an explicit search for such a platform —
registered or not — is served from a final-cache entry written by a
platform-less search, invoking no adapter. -/
theorem C10_any_token_alias (address : String) (c : Coordinates) (p : String)
    (hp : pyStrip (pyLower p) = "any") :
    Geocoder.generate_cache_key address (some p) =
      Geocoder.generate_cache_key address none
  ∧ GeocoderReverser.generate_cache_key c (some p) =
      GeocoderReverser.generate_cache_key c none
  ∧ ∀ (Data : Type) (loads : String → Data) (dumps : Data → String)
      (registry : List (String × (String → PyResult Data String)))
      (st : CacheState) (data : Data),
      (CacheManager.get_final loads st
          (Geocoder.generate_cache_key address none)).1 = some data →
      Orchestrator.search loads dumps Geocoder.generate_cache_key registry st
          address (some p) =
        ⟨⟨true, some data, none⟩,
         (CacheManager.get_final loads st
            (Geocoder.generate_cache_key address none)).2, []⟩ := by
  have hnorm : platformNorm (some p) = platformNorm none := by
    by_cases hpe : p = ""
    · subst hpe; simp [platformNorm]
    · simp [platformNorm, hpe, hp]
  have hkey : Geocoder.generate_cache_key address (some p) =
      Geocoder.generate_cache_key address none := by
    simp [Geocoder.generate_cache_key, hnorm]
  have hkey2 : GeocoderReverser.generate_cache_key c (some p) =
      GeocoderReverser.generate_cache_key c none := by
    simp [GeocoderReverser.generate_cache_key, hnorm]
  refine ⟨hkey, hkey2, ?_⟩
  intro Data loads dumps registry st data h
  have h2 : (CacheManager.get_final loads st
      (Geocoder.generate_cache_key address (some p))).1 = some data := by
    rw [hkey]; exact h
  have hrun := Orchestrator.search_cacheHit loads dumps Geocoder.generate_cache_key
    registry st address (some p) data h2
  rw [hrun, hkey]

/-- C10 witness: `"ANY"` derives the platform-less key, and an explicit
`search(platform="ANY")` against an empty registry is served from the
cache entry written under the platform-less key. -/
theorem C10_any_token_alias_witness :
    Geocoder.generate_cache_key "addr" (some "ANY") =
      Geocoder.generate_cache_key "addr" none
  ∧ Orchestrator.search (fun s => s) (fun s => s) Geocoder.generate_cache_key []
      ⟨[], [], [(Geocoder.generate_cache_key "addr" none, "v")]⟩ "addr"
      (some "ANY") =
      ⟨⟨true, some "v", none⟩,
       (CacheManager.get_final (fun s => s)
          ⟨[], [], [(Geocoder.generate_cache_key "addr" none, "v")]⟩
          (Geocoder.generate_cache_key "addr" none)).2, []⟩ :=
  ⟨(C10_any_token_alias "addr" ⟨0, 0⟩ "ANY" (by decide)).1,
   (C10_any_token_alias "addr" ⟨0, 0⟩ "ANY" (by decide)).2.2 String (fun s => s)
     (fun s => s) [] ⟨[], [], [(Geocoder.generate_cache_key "addr" none, "v")]⟩
     "v" (by decide)⟩

/-! ## Claim C6 -/

/-- Two lists of parameter entries that are permutations of each other,
both sorted by key, with no duplicate key, are equal. -/
theorem sortedKeysNodupPermEq :
    ∀ l1 l2 : List (String × JValue), l1.Perm l2 →
      l1.Sorted keyLE → l2.Sorted keyLE → (l1.map Prod.fst).Nodup → l1 = l2 := by
  intro l1
  induction l1 with
  | nil =>
    intro l2 hp _ _ _
    exact (hp.nil_eq).symm ▸ rfl
  | cons a t1 ih =>
    intro l2 hp hs1 hs2 hnd
    cases l2 with
    | nil => exact absurd hp.symm.nil_eq (by simp)
    | cons b t2 =>
      have hab : a = b := by
        rcases List.mem_cons.mp (hp.subset (List.mem_cons_self a t1)) with h | hat2
        · exact h
        rcases List.mem_cons.mp (hp.symm.subset (List.mem_cons_self b t2)) with h | hbt1
        · exact h.symm
        have h1 : a.1 ≤ b.1 := (List.sorted_cons.mp hs1).1 b hbt1
        have h2 : b.1 ≤ a.1 := (List.sorted_cons.mp hs2).1 a hat2
        have heq : a.1 = b.1 := le_antisymm h1 h2
        have hmem : a.1 ∈ t1.map Prod.fst := heq ▸ List.mem_map_of_mem Prod.fst hbt1
        exact absurd hmem (List.nodup_cons.mp hnd).1
      subst hab
      have htails := hp.cons_inv
      have := ih t2 htails (List.sorted_cons.mp hs1).2 (List.sorted_cons.mp hs2).2
        (List.nodup_cons.mp hnd).2
      rw [this]

/-- The canonical sort is insensitive to the insertion order of a
duplicate-free parameter mapping. -/
theorem sortByKey_det (l1 l2 : List (String × JValue)) (hperm : l1.Perm l2)
    (hnd : (l1.map Prod.fst).Nodup) : sortByKey l1 = sortByKey l2 := by
  apply sortedKeysNodupPermEq
  · exact (l1.perm_insertionSort keyLE).trans
      (hperm.trans (l2.perm_insertionSort keyLE).symm)
  · exact l1.sorted_insertionSort keyLE
  · exact l2.sorted_insertionSort keyLE
  · exact (((l1.perm_insertionSort keyLE).map Prod.fst).nodup_iff).mpr hnd

/-- C6, raw-key determinism: for every provider name, two derivations of
the raw-response cache key over the same set of key/value pairs — the
same entries inserted in different orders — yield identical keys, and the
key has the form `raw:<provider-name>:<hex-hash>` of the canonical
(key-sorted) serialization. -/
theorem C6_raw_key_determinism (name : String) (l1 l2 : List (String × JValue))
    (hperm : l1.Perm l2) (hnd : (l1.map Prod.fst).Nodup) :
    ServiceCommandBase.generate_cache_key name l1 =
      ServiceCommandBase.generate_cache_key name l2
  ∧ ServiceCommandBase.generate_cache_key name l1 =
      "raw:" ++ name ++ ":" ++ sha256hex (dumpsSorted l1) := by
  constructor
  · simp [ServiceCommandBase.generate_cache_key, dumpsSorted,
      sortByKey_det l1 l2 hperm hnd]
  · rfl

/-- C6 witness: the same two parameter entries inserted in either order
derive the same raw key. -/
theorem C6_raw_key_determinism_witness :
    ServiceCommandBase.generate_cache_key "NominatimGeocoder"
      [("b", .s "y"), ("a", .s "x")] =
    ServiceCommandBase.generate_cache_key "NominatimGeocoder"
      [("a", .s "x"), ("b", .s "y")] :=
  (C6_raw_key_determinism "NominatimGeocoder"
    [("b", .s "y"), ("a", .s "x")] [("a", .s "x"), ("b", .s "y")]
    (List.Perm.swap ("a", JValue.s "x") ("b", JValue.s "y") []) (by decide)).1

/-! ## Claim C7 -/

/-- C7 counterexample: the claim says coordinates differing only beyond
the sixth decimal digit derive equal reverse-geocode keys, for every
platform selector.  The code formats with rounding, not truncation:
latitudes `0.1234561` and `0.1234569` agree on the integer part and the
first six decimal digits (equal `trunc6`) and differ only in the seventh,
yet format to `"0.123456"` and `"0.123457"` respectively, so their keys
differ already for the platform-less selector. -/
theorem C7_counterexample :
    trunc6 (⟨1234561, 10000000, by norm_num, by norm_num⟩ : ℚ) =
      trunc6 (⟨1234569, 10000000, by norm_num, by norm_num⟩ : ℚ)
  ∧ (⟨1234561, 10000000, by norm_num, by norm_num⟩ : ℚ) ≠
      (⟨1234569, 10000000, by norm_num, by norm_num⟩ : ℚ)
  ∧ GeocoderReverser.generate_cache_key
      ⟨⟨1234561, 10000000, by norm_num, by norm_num⟩, 0⟩ none ≠
    GeocoderReverser.generate_cache_key
      ⟨⟨1234569, 10000000, by norm_num, by norm_num⟩, 0⟩ none := by
  refine ⟨by decide, by decide, by decide⟩

/-- C7 amended: for every pair of coordinates whose latitudes (and
longitudes) have the same sign and round half-to-even to the same
six-decimal value, and every platform selector, the derived final
reverse-geocode cache keys are equal.  (Equality of the rounded values —
not mere agreement of the first six decimal digits — is what the fixed
six-decimal formatting guarantees.) -/
theorem C7_amended_rounded_keys (c1 c2 : Coordinates) (platform : Option String)
    (hlatsign : c1.latitude.num < 0 ↔ c2.latitude.num < 0)
    (hlat : round6 c1.latitude = round6 c2.latitude)
    (hlonsign : c1.longitude.num < 0 ↔ c2.longitude.num < 0)
    (hlon : round6 c1.longitude = round6 c2.longitude) :
    GeocoderReverser.generate_cache_key c1 platform =
      GeocoderReverser.generate_cache_key c2 platform := by
  have h1 : fmt6 c1.latitude = fmt6 c2.latitude := by
    simp only [fmt6, hlat]
    by_cases h : c1.latitude.num < 0
    · rw [if_pos h, if_pos (hlatsign.mp h)]
    · rw [if_neg h, if_neg (fun hc => h (hlatsign.mpr hc))]
  have h2 : fmt6 c1.longitude = fmt6 c2.longitude := by
    simp only [fmt6, hlon]
    by_cases h : c1.longitude.num < 0
    · rw [if_pos h, if_pos (hlonsign.mp h)]
    · rw [if_neg h, if_neg (fun hc => h (hlonsign.mpr hc))]
  simp [GeocoderReverser.generate_cache_key, h1, h2]

/-- C7 witness: two latitudes differing in the seventh decimal digit
without crossing the rounding boundary of the sixth place (both round to
`0.123456`) derive equal keys for an explicit platform selector. -/
theorem C7_amended_rounded_keys_witness :
    GeocoderReverser.generate_cache_key
      ⟨⟨1234561, 10000000, by norm_num, by norm_num⟩, 0⟩ (some "HERE") =
    GeocoderReverser.generate_cache_key
      ⟨⟨1234563, 10000000, by norm_num, by norm_num⟩, 0⟩ (some "HERE") :=
  C7_amended_rounded_keys
    ⟨⟨1234561, 10000000, by norm_num, by norm_num⟩, 0⟩
    ⟨⟨1234563, 10000000, by norm_num, by norm_num⟩, 0⟩ (some "HERE")
    (by decide) (by decide) (by decide) (by decide)
